import Mathlib

/-!
Verification of the shaft-fatigue calculation pipeline of `src/Shaft2.py`.

The numeric pipeline of the source file is embedded shallowly: Python floats
become real numbers, `x ** y` becomes `Real.rpow`, `math.sqrt` becomes
`Real.sqrt`, and values that the source guards with `is not None` checks
become `Option ℝ`, with `none` playing the role of Python `None`.
-/

namespace Shaft2

/-- The sidebar inputs of the page (geometry, material, loading), in the
order they are declared in the source. -/
structure ShaftInputs where
  Da : ℝ
  Db : ℝ
  r : ℝ
  L : ℝ
  Lfa : ℝ
  Lfb : ℝ
  UTS : ℝ
  Sy : ℝ
  aSurf : ℝ
  bSurf : ℝ
  Fa : ℝ
  Fb : ℝ

/-- The entries of the `material_type` selectbox. -/
inductive Material where
  | Steel
  | Aluminum
  | Titanium
  | Custom
deriving DecidableEq

noncomputable section

/-- The surface-factor constant `a`: `4.51` for both Steel and Aluminum
(the Aluminum branch of the source is a placeholder repeating the Steel
values), and the user-supplied number otherwise. -/
def surfA : Material → ℝ → ℝ
  | Material.Steel, _ => 4.51
  | Material.Aluminum, _ => 4.51
  | _, aIn => aIn

/-- The surface-factor exponent `b`: `-0.265` for both Steel and Aluminum,
and the user-supplied number otherwise. -/
def surfB : Material → ℝ → ℝ
  | Material.Steel, _ => -0.265
  | Material.Aluminum, _ => -0.265
  | _, bIn => bIn

/-- `Kt = 1.0 + 0.5*(D_ratio-1)*(1 + 1/math.sqrt(r_ratio))` with
`D_ratio = Da/Db` and `r_ratio = r/Db` inlined. -/
def Kt (i : ShaftInputs) : ℝ :=
  1.0 + 0.5 * (i.Da / i.Db - 1) * (1 + 1 / Real.sqrt (i.r / i.Db))

/-- `Se_prime = 0.5 * UTS`. -/
def Se_prime (i : ShaftInputs) : ℝ := 0.5 * i.UTS

/-- `ka = a * (UTS ** b)`. -/
def ka (m : Material) (i : ShaftInputs) : ℝ :=
  surfA m i.aSurf * i.UTS ^ surfB m i.bSurf

/-- `kb = 1.24 * (Da ** -0.107) if 7.62 <= Da <= 51 else 1.51 * (Da ** -0.157)`.
The source keys the size factor off the major diameter `Da` and is total:
the `else` branch covers every `Da` outside `[7.62, 51]`. -/
def kb (Da : ℝ) : ℝ :=
  if 7.62 ≤ Da ∧ Da ≤ 51 then 1.24 * Da ^ (-0.107 : ℝ)
  else 1.51 * Da ^ (-0.157 : ℝ)

/-- `Se = ka * kb * Se_prime`. -/
def Se (m : Material) (i : ShaftInputs) : ℝ :=
  ka m i * kb i.Da * Se_prime i

/-- The Neuber constant: a cubic polynomial in `UTS` when
`340 <= UTS <= 1700`, and `None` otherwise. -/
def NC (i : ShaftInputs) : Option ℝ :=
  if 340 ≤ i.UTS ∧ i.UTS ≤ 1700 then
    some (1.24 - 2.25e-3 * i.UTS + 1.60e-6 * i.UTS ^ 2 - 4.11e-10 * i.UTS ^ 3)
  else none

/-- `Kf = 1 + (Kt - 1)/(1 + NC/math.sqrt(r))` when `NC is not None`,
else `None`. -/
def Kf (i : ShaftInputs) : Option ℝ :=
  (NC i).map fun nc => 1 + (Kt i - 1) / (1 + nc / Real.sqrt i.r)

/-- `M_B = (Lfa * Fb / L) - 250`. -/
def M_B (i : ShaftInputs) : ℝ := i.Lfa * i.Fb / i.L - 250

/-- `section_modulus = (math.pi * Db**3) / 32`. -/
def section_modulus (i : ShaftInputs) : ℝ := Real.pi * i.Db ^ 3 / 32

/-- `sigma_ar = Kf * M_B / section_modulus if Kf is not None else None`. -/
def sigma_ar (i : ShaftInputs) : Option ℝ :=
  (Kf i).map fun kf => kf * M_B i / section_modulus i

/-- `safety_factor = Se / sigma_ar`, computed only inside the
`if sigma_ar is not None` branch of the source. -/
def safety_factor (m : Material) (i : ShaftInputs) : Option ℝ :=
  (sigma_ar i).map fun s => Se m i / s

/-- `status = "success" if safety_factor > 1.5 else "warning"`: the
classification the source applies to the computed safety factor. -/
def status (n : ℝ) : String :=
  if 1.5 < n then "success" else "warning"

/-- The result bundle of one render pass of the calculation tab. -/
structure FatigueResult where
  Kt : ℝ
  Se_prime : ℝ
  ka : ℝ
  kb : ℝ
  Se : ℝ
  NC : Option ℝ
  Kf : Option ℝ
  M_B : ℝ
  section_modulus : ℝ
  sigma_ar : Option ℝ
  safety_factor : Option ℝ

/-- The whole pipeline as one function of the material choice and inputs. -/
def compute (m : Material) (i : ShaftInputs) : FatigueResult :=
  ⟨Kt i, Se_prime i, ka m i, kb i.Da, Se m i, NC i, Kf i, M_B i,
   section_modulus i, sigma_ar i, safety_factor m i⟩

/-- Modelled from the spec: the source file computes no mean bending stress;
under the fully-reversed-bending assumption used throughout, the spec fixes
the mean bending stress `sigma_m` to zero (visible in the source only through
`safety_factor = Se / sigma_ar`, the Goodman formula with zero mean stress). -/
def sigma_m : ℝ := 0

/-- The size factor as the claim states it: piecewise in the minor diameter
`Db`, with lower bound `2.79`, second band `51 < Db <= 254`, and undefined
outside `[2.79, 254]`. Stated here only to be compared with `kb`. -/
def kb_claim (Db : ℝ) : Option ℝ :=
  if 2.79 ≤ Db ∧ Db ≤ 51 then some (1.24 * Db ^ (-0.107 : ℝ))
  else if 51 < Db ∧ Db ≤ 254 then some (1.51 * Db ^ (-0.157 : ℝ))
  else none

/-- The three states of the finite-life stage. -/
inductive LifeState where
  | NOT_APPLICABLE
  | INFINITE_LIFE
  | FINITE_LIFE
deriving DecidableEq

/-- Modelled from the spec: the Goodman-equivalent fully-reversed stress of
the finite-life stage, `sar = sa/(1 - sm/UTS)` when `sm < UTS`, else `sa`.
No finite-life code exists in `src/Shaft2.py`. -/
def sigma_arEquiv (sa sm uts : ℝ) : ℝ :=
  if sm < uts then sa / (1 - sm / uts) else sa

/-- Modelled from the spec: the S-N coefficient `a = (f*UTS)^2/Se`. -/
def a_fatigue (f uts se : ℝ) : ℝ := (f * uts) ^ 2 / se

/-- Modelled from the spec: the S-N exponent `b = -(1/3)*log10(f*UTS/Se)`. -/
def b_fatigue (f uts se : ℝ) : ℝ :=
  -(1 / 3) * Real.logb 10 (f * uts / se)

/-- Modelled from the spec: cycles to failure `N = (sar/a)^(1/b)` when
`a > 0` and `b` is nonzero, else undefined. -/
def N_failure (f uts se sar : ℝ) : Option ℝ :=
  if 0 < a_fatigue f uts se ∧ b_fatigue f uts se ≠ 0 then
    some ((sar / a_fatigue f uts se) ^ (1 / b_fatigue f uts se))
  else none

/-- Modelled from the spec: the finite-life stage. In spec order: first
`sa <= Se` gives infinite life, then `sa >= Sy` gives not-applicable, else
finite life with the S-N cycle count. No finite-life code exists in
`src/Shaft2.py`. -/
def finiteLife (sa sm uts f se sy : ℝ) : LifeState × Option ℝ :=
  if sa ≤ se then (LifeState.INFINITE_LIFE, none)
  else if sy ≤ sa then (LifeState.NOT_APPLICABLE, none)
  else (LifeState.FINITE_LIFE, N_failure f uts se (sigma_arEquiv sa sm uts))

/-- The default sidebar values of the source, with `Da`, `Db`, `r` set to `4`
and `Lfa` set to `0` so that every stage evaluates to a closed form. -/
def sample0 : ShaftInputs :=
  ⟨4, 4, 4, 550, 0, 300, 690, 490, 4.51, -0.265, 1000, 1500⟩

/-- The default sidebar values of the source with `UTS = 100`, below the
Neuber validity range. -/
def sample100 : ShaftInputs :=
  ⟨38, 32, 3, 550, 225, 300, 100, 490, 4.51, -0.265, 1000, 1500⟩

/-- A simple geometry with `Da = 2`, `Db = 1`, `r = 1` used to witness the
stress-concentration bound. -/
def sampleKt : ShaftInputs :=
  ⟨2, 1, 1, 550, 225, 300, 690, 490, 4.51, -0.265, 1000, 1500⟩

end

/-! Helper evaluations at the sample inputs. -/

lemma Kt_sample0 : Kt sample0 = 1 := by
  simp only [Kt, sample0]
  norm_num [Real.sqrt_one]

lemma NC_sample0 : NC sample0 = some 0.314242801 := by
  have hcond : (340 : ℝ) ≤ sample0.UTS ∧ sample0.UTS ≤ 1700 := by
    norm_num [sample0]
  unfold NC
  rw [if_pos hcond]
  norm_num [sample0]

lemma Kf_sample0 : Kf sample0 = some 1 := by
  unfold Kf
  rw [NC_sample0]
  simp only [Option.map_some']
  rw [Kt_sample0]
  norm_num

lemma M_B_sample0 : M_B sample0 = -250 := by
  simp only [M_B, sample0]
  norm_num

lemma sigma_ar_sample0 : sigma_ar sample0 = some (-125 / Real.pi) := by
  unfold sigma_ar section_modulus
  rw [Kf_sample0]
  simp only [Option.map_some']
  rw [M_B_sample0]
  congr 1
  have hπ := Real.pi_ne_zero
  simp only [sample0]
  field_simp
  ring

lemma Se_sample0_pos : 0 < Se Material.Steel sample0 := by
  have h4 : ¬(7.62 ≤ sample0.Da ∧ sample0.Da ≤ 51) := by
    norm_num [sample0]
  unfold Se ka kb Se_prime surfA surfB
  rw [if_neg h4]
  simp only [sample0]
  positivity

lemma NC_sample100 : NC sample100 = none := by
  unfold NC
  rw [if_neg]
  norm_num [sample100]

lemma sigma_ar_sample100 : sigma_ar sample100 = none := by
  unfold sigma_ar Kf
  rw [NC_sample100]
  rfl

/-! The claims. -/

/-- C5: the Neuber constant is defined exactly when `340 <= UTS <= 1700`,
both bounds inclusive. -/
theorem NC_defined_iff (i : ShaftInputs) :
    (NC i).isSome = true ↔ 340 ≤ i.UTS ∧ i.UTS ≤ 1700 := by
  unfold NC
  split <;> rename_i h <;> simp [h]

/-- C6: when the Neuber constant is undefined, the undefinedness propagates
explicitly: `Kf`, the alternating bending stress and the safety factor are
all the explicit `none` marker, never a substituted default. -/
theorem undefined_propagates (m : Material) (i : ShaftInputs)
    (h : NC i = none) :
    Kf i = none ∧ sigma_ar i = none ∧ safety_factor m i = none := by
  have hKf : Kf i = none := by unfold Kf; rw [h]; rfl
  have hs : sigma_ar i = none := by unfold sigma_ar; rw [hKf]; rfl
  have hsf : safety_factor m i = none := by unfold safety_factor; rw [hs]; rfl
  exact ⟨hKf, hs, hsf⟩

/-- C6 witness: at the default inputs with `UTS = 100` the Neuber constant
is undefined and the undefinedness propagates to `Kf`, the alternating
stress and the safety factor. -/
theorem undefined_propagates_witness :
    Kf sample100 = none ∧ sigma_ar sample100 = none ∧
      safety_factor Material.Steel sample100 = none :=
  undefined_propagates Material.Steel sample100 NC_sample100

/-- C2: the corrected endurance limit satisfies the exact Marin identity
`Se = ka * kb * Se_prime`, with `Se_prime = 0.5*UTS` and
`ka = a * UTS ^ b`; in this source all three factors are total. -/
theorem Se_marin_identity (m : Material) (i : ShaftInputs) :
    Se m i = ka m i * kb i.Da * Se_prime i ∧
      Se_prime i = 0.5 * i.UTS ∧
      ka m i = surfA m i.aSurf * i.UTS ^ surfB m i.bSurf :=
  ⟨rfl, rfl, rfl⟩

/-- C10: the Steel and Aluminum branches assign the same surface-factor
constants, so the whole computed result is identical for the two material
selections on every input. -/
theorem steel_aluminum_identical (i : ShaftInputs) :
    compute Material.Steel i = compute Material.Aluminum i := rfl

/-- C9: for positive `Db` and `r`, the theoretical stress-concentration
factor satisfies `Kt >= 1` whenever `Da >= Db` (finiteness is inherent to
the real-valued model). -/
theorem Kt_ge_one (i : ShaftInputs) (hb : 0 < i.Db) (hr : 0 < i.r)
    (h : i.Db ≤ i.Da) : 1 ≤ Kt i := by
  have hs : 0 < Real.sqrt (i.r / i.Db) := Real.sqrt_pos.mpr (div_pos hr hb)
  have h1 : 0 ≤ i.Da / i.Db - 1 := by
    rw [sub_nonneg]
    exact (one_le_div hb).mpr h
  have h2 : 0 < 1 + 1 / Real.sqrt (i.r / i.Db) := by positivity
  unfold Kt
  nlinarith [mul_nonneg h1 h2.le]

/-- C9 witness: at `Da = 2`, `Db = 1`, `r = 1` the hypotheses hold and the
bound `Kt >= 1` follows. -/
theorem Kt_ge_one_witness :
    (0 < sampleKt.Db ∧ 0 < sampleKt.r ∧ sampleKt.Db ≤ sampleKt.Da) ∧
      1 ≤ Kt sampleKt :=
  ⟨⟨by norm_num [sampleKt], by norm_num [sampleKt], by norm_num [sampleKt]⟩,
   Kt_ge_one sampleKt (by norm_num [sampleKt]) (by norm_num [sampleKt])
     (by norm_num [sampleKt])⟩

/-- C1 counterexample: at `Da = Db = 300`, outside the claimed interval
`[2.79, 254]`, the claim makes the size factor undefined, but the source
computes a defined, strictly positive `kb` (and hence a defined `Se`). -/
theorem kb_total_outside_claimed_range :
    kb_claim 300 = none ∧ 0 < kb 300 := by
  constructor
  · unfold kb_claim
    rw [if_neg (by norm_num), if_neg (by norm_num)]
  · unfold kb
    rw [if_neg (by norm_num)]
    positivity

/-- C1 (amended): the size factor is piecewise in the major diameter `Da`
and total: `kb = 1.24*Da^-0.107` for `7.62 <= Da <= 51`, and
`kb = 1.51*Da^-0.157` for every other `Da`. -/
theorem kb_piecewise_in_Da (Da : ℝ) :
    (7.62 ≤ Da ∧ Da ≤ 51 → kb Da = 1.24 * Da ^ (-0.107 : ℝ)) ∧
      (¬(7.62 ≤ Da ∧ Da ≤ 51) → kb Da = 1.51 * Da ^ (-0.157 : ℝ)) :=
  ⟨fun h => by unfold kb; rw [if_pos h],
   fun h => by unfold kb; rw [if_neg h]⟩

/-- C1 witness: the two bands of the amended piecewise form, evaluated at
`Da = 10` and `Da = 300`. -/
theorem kb_piecewise_in_Da_witness :
    kb 10 = 1.24 * (10 : ℝ) ^ (-0.107 : ℝ) ∧
      kb 300 = 1.51 * (300 : ℝ) ^ (-0.157 : ℝ) :=
  ⟨(kb_piecewise_in_Da 10).1 (by norm_num),
   (kb_piecewise_in_Da 300).2 (by norm_num)⟩

/-- C3 counterexample: at `sample0` the Goodman denominator
`sigma_a/Se + sigma_m/UTS` is nonpositive, yet the computed safety factor
is defined, not the undefined marker the claim requires. -/
theorem safety_factor_defined_nonpos_denom :
    sigma_ar sample0 = some (-125 / Real.pi) ∧
      -125 / Real.pi / Se Material.Steel sample0 + sigma_m / sample0.UTS ≤ 0 ∧
      safety_factor Material.Steel sample0 ≠ none := by
  refine ⟨sigma_ar_sample0, ?_, ?_⟩
  · have hps : 0 < Real.pi * Se Material.Steel sample0 :=
      mul_pos Real.pi_pos Se_sample0_pos
    have hrw : -125 / Real.pi / Se Material.Steel sample0 =
        -(125 / (Real.pi * Se Material.Steel sample0)) := by
      ring
    rw [hrw, sigma_m, zero_div, add_zero]
    have : 0 ≤ 125 / (Real.pi * Se Material.Steel sample0) :=
      (div_pos (by norm_num) hps).le
    linarith
  · unfold safety_factor
    rw [sigma_ar_sample0]
    simp

/-- C3 (amended): the safety factor is the reduced Goodman quotient
`Se / sigma_a` and is the undefined marker exactly when the alternating
stress is undefined; no check on the sign of the denominator is made. -/
theorem safety_factor_goodman_reduced (m : Material) (i : ShaftInputs) :
    (sigma_ar i = none → safety_factor m i = none) ∧
      ∀ s, sigma_ar i = some s → safety_factor m i = some (Se m i / s) := by
  constructor
  · intro h
    unfold safety_factor
    rw [h]
    rfl
  · intro s h
    unfold safety_factor
    rw [h]
    rfl

/-- C3 witness for the amended claim: the undefined case at `sample100`
and the defined case at `sample0`. -/
theorem safety_factor_goodman_reduced_witness :
    safety_factor Material.Steel sample100 = none ∧
      safety_factor Material.Steel sample0 =
        some (Se Material.Steel sample0 / (-125 / Real.pi)) :=
  ⟨(safety_factor_goodman_reduced Material.Steel sample100).1 sigma_ar_sample100,
   (safety_factor_goodman_reduced Material.Steel sample0).2 _ sigma_ar_sample0⟩

/-- C4 counterexample: the source classification is two-way at `1.5`:
a safety factor of `1.2` (which the claim calls safe), of exactly `1`
(which the claim calls a distinct critical state) and of `0.5` (unsafe)
are all classified identically as `warning`. -/
theorem status_no_critical_at_one :
    status 1.2 = "warning" ∧ status 1 = "warning" ∧
      status 0.5 = "warning" := by
  refine ⟨?_, ?_, ?_⟩ <;>
    · unfold status
      rw [if_neg (by norm_num)]

/-- C4 (amended): the classification is two-way at threshold `1.5`:
`n > 1.5` is reported `success` and every `n <= 1.5`, including `n = 1`,
is reported `warning`; no distinct state exists at `n = 1`. -/
theorem status_two_way (n : ℝ) :
    (1.5 < n → status n = "success") ∧ (n ≤ 1.5 → status n = "warning") :=
  ⟨fun h => by unfold status; rw [if_pos h],
   fun h => by unfold status; rw [if_neg (not_lt.mpr h)]⟩

/-- C4 witness: the two branches of the amended classification at `n = 2`
and `n = 1`. -/
theorem status_two_way_witness :
    status 2 = "success" ∧ status 1 = "warning" :=
  ⟨(status_two_way 2).1 (by norm_num), (status_two_way 1).2 (by norm_num)⟩

/-- C7: whenever `Kf` is defined, the alternating bending stress is
`Kf * M_B / Z` with section modulus `Z = pi * Db^3 / 32`, and the mean
bending stress is zero. -/
theorem sigma_ar_formula (i : ShaftInputs) :
    (∀ k, Kf i = some k →
      sigma_ar i = some (k * M_B i / (Real.pi * i.Db ^ 3 / 32))) ∧
      sigma_m = 0 := by
  constructor
  · intro k h
    unfold sigma_ar section_modulus
    rw [h]
    rfl
  · rfl

/-- C7 witness: at `sample0` the fatigue factor is defined (`Kf = 1`) and
the alternating stress equals `Kf * M_B / (pi * Db^3 / 32)`, with zero mean
stress. -/
theorem sigma_ar_formula_witness :
    sigma_ar sample0 =
        some (1 * M_B sample0 / (Real.pi * sample0.Db ^ 3 / 32)) ∧
      sigma_m = 0 :=
  ⟨(sigma_ar_formula sample0).1 1 Kf_sample0, (sigma_ar_formula sample0).2⟩

/-- C8: the finite-life stage is a three-state classifier: `sa <= Se` gives
infinite life (equality included), otherwise `sa >= Sy` gives
not-applicable (equality included), and otherwise (`Se < sa < Sy`) finite
life with `N = (sar/a)^(1/b)`, `a = (f*UTS)^2/Se` and
`b = -(1/3)*log10(f*UTS/Se)`. -/
theorem finite_life_three_state (sa sm uts f se sy : ℝ) :
    (sa ≤ se → finiteLife sa sm uts f se sy = (LifeState.INFINITE_LIFE, none)) ∧
      (se < sa → sy ≤ sa →
        finiteLife sa sm uts f se sy = (LifeState.NOT_APPLICABLE, none)) ∧
      (se < sa → sa < sy →
        (finiteLife sa sm uts f se sy).1 = LifeState.FINITE_LIFE ∧
        a_fatigue f uts se = (f * uts) ^ 2 / se ∧
        b_fatigue f uts se = -(1 / 3) * Real.logb 10 (f * uts / se) ∧
        (0 < a_fatigue f uts se → b_fatigue f uts se ≠ 0 →
          (finiteLife sa sm uts f se sy).2 =
            some ((sigma_arEquiv sa sm uts / a_fatigue f uts se) ^
              (1 / b_fatigue f uts se)))) := by
  refine ⟨?_, ?_, ?_⟩
  · intro h
    unfold finiteLife
    rw [if_pos h]
  · intro h1 h2
    unfold finiteLife
    rw [if_neg (not_le.mpr h1), if_pos h2]
  · intro h1 h2
    unfold finiteLife
    rw [if_neg (not_le.mpr h1), if_neg (not_le.mpr h2)]
    refine ⟨rfl, rfl, rfl, fun ha hb => ?_⟩
    show N_failure f uts se (sigma_arEquiv sa sm uts) = _
    unfold N_failure
    rw [if_pos ⟨ha, hb⟩]

/-- C8 witness: at `sa = 2`, `sm = 0`, `UTS = 10`, `f = 1`, `Se = 1`,
`Sy = 3` the stage lands in the finite-life band and computes the S-N
cycle count. -/
theorem finite_life_three_state_witness :
    (finiteLife 2 0 10 1 1 3).1 = LifeState.FINITE_LIFE ∧
      (finiteLife 2 0 10 1 1 3).2 =
        some ((sigma_arEquiv 2 0 10 / a_fatigue 1 10 1) ^
          (1 / b_fatigue 1 10 1)) := by
  have h := (finite_life_three_state 2 0 10 1 1 3).2.2 (by norm_num)
    (by norm_num)
  have hb : b_fatigue 1 10 1 ≠ 0 := by
    unfold b_fatigue
    rw [show (1 : ℝ) * 10 / 1 = 10 by norm_num,
      Real.logb_self_eq_one (by norm_num)]
    norm_num
  exact ⟨h.1, h.2.2.2 (by unfold a_fatigue; norm_num) hb⟩

end Shaft2
